import Mathlib

/-
  Verification of the Driver-checker backend (my-app/backend/upki_client.py and
  my-app/backend/app.py) through a shallow embedding in Lean.

  The embedding models:
  - the process environment as a partial map from variable names to strings,
  - the local filesystem as a predicate saying which paths exist,
  - the remote SOAP endpoint as a function from the request object to an outcome
    (success payload, SOAP fault, requests-level exception, or OSError),
  - the one piece of process-wide mutable state touched by the module, the level
    of the zeep logger, as an explicit natural-number argument/result
    (logging.DEBUG is 10 in CPython).

  Python exceptions are modelled as an Except result whose error type mirrors the
  module's exception classes (UpkiClientError, UpkiConfigurationError,
  UpkiServiceError).  Python string truthiness (if not s) is modelled as equality
  with the empty string.  float values are modelled as rationals; the float()
  parser is modelled on the decimal literals relevant here (optional sign, digits,
  optional fractional part) -- scientific notation, inf/nan and underscores do not
  occur in this development.
-/

namespace Upki

/-- The process environment: os.environ.get. -/
abbrev Env := String → Option String

/-- The local filesystem: os.path.exists. -/
abbrev FS := String → Bool

/-- Whether the list of characters begins with the given needle. -/
def listStartsWith : List Char → List Char → Bool
  | [], _ => true
  | _ :: _, [] => false
  | a :: as, b :: bs => a == b && listStartsWith as bs

/-- Whether the needle occurs contiguously anywhere in the list. -/
def listContains (needle : List Char) : List Char → Bool
  | [] => needle.isEmpty
  | c :: cs => listStartsWith needle (c :: cs) || listContains needle cs

/-- Python's substring test: needle in s. -/
def containsSubstr (needle s : String) : Bool :=
  listContains needle.data s.data

/-- Value of a list of decimal digit characters. -/
def digitsVal (cs : List Char) : Nat :=
  cs.foldl (fun a c => a * 10 + (c.toNat - 48)) 0

/-- Split a character list at the first dot, if any. -/
def splitFrac : List Char → List Char × Option (List Char)
  | [] => ([], none)
  | c :: rest =>
    if c = '.' then ([], some rest)
    else
      let p := splitFrac rest
      (c :: p.1, p.2)

/-- Parse an unsigned decimal literal (digits, optional fractional part); the
value int.frac is the rational (int * 10 ^ len + frac) / 10 ^ len. -/
def parseUnsigned? (cs : List Char) : Option ℚ :=
  let p := splitFrac cs
  match p.2 with
  | none =>
    if !p.1.isEmpty && p.1.all Char.isDigit then
      some (mkRat (Int.ofNat (digitsVal p.1)) 1)
    else none
  | some frac =>
    if (!p.1.isEmpty || !frac.isEmpty) && p.1.all Char.isDigit && frac.all Char.isDigit then
      let den := Nat.pow 10 frac.length
      some (mkRat (Int.ofNat (digitsVal p.1 * den + digitsVal frac)) den)
    else none

/-- Python float() on the decimal literals this module can meet. -/
def parseFloat? (s : String) : Option ℚ :=
  match s.data with
  | '-' :: rest => (parseUnsigned? rest).map (fun q => -q)
  | '+' :: rest => parseUnsigned? rest
  | cs => parseUnsigned? cs

/-- A structural value tree: the shape zeep serialize_object and flask jsonify
exchange (string, number, boolean, null, object, array). -/
inductive JsonVal where
  | null
  | bool (b : Bool)
  | num (q : ℚ)
  | str (s : String)
  | arr (items : List JsonVal)
  | obj (fields : List (String × JsonVal))

/-- A SOAP fault detail element as the client sees it: zeep serialize_object
either returns a structural value (serialized = some v) or raises
(serialized = none); str(detail) always yields its textual representation. -/
structure FaultDetail where
  serialized : Option JsonVal
  text : String

/-- The serialized form of a fault detail: a structural value or a string. -/
inductive DetailRepr where
  | value (v : JsonVal)
  | text (s : String)

/-- The exception values raised by upki_client, one constructor per Python
exception class: UpkiClientError (base), UpkiConfigurationError,
UpkiServiceError with fault_code and details attributes. -/
inductive UpkiError where
  | clientError (message : String)
  | configurationError (message : String)
  | serviceError (message : String) (fault_code : Option String)
      (details : Option DetailRepr)

/-- The Python exception class of an UpkiError value; this is what the except
clauses of the Flask endpoint dispatch on. -/
inductive ErrClass where
  | upkiClientError
  | upkiConfigurationError
  | upkiServiceError
deriving DecidableEq

/-- Class of each error value. -/
def errClass : UpkiError → ErrClass
  | .clientError _ => .upkiClientError
  | .configurationError _ => .upkiConfigurationError
  | .serviceError _ _ _ => .upkiServiceError

/-- UpkiConfig, the frozen dataclass of upki_client.py. -/
structure UpkiConfig where
  wsdl_path : String
  service_endpoint : String
  tls_cert_pem : String
  tls_key_pem : String
  ca_bundle : Option String
  wsse_key_pem : String
  wsse_cert_pem : String
  connect_timeout : ℚ
  read_timeout : ℚ
  debug_soap : Bool

/-- Default for UPKI_WSDL_PATH (a Python raw string, so the backslashes are
doubled in the value itself). -/
def defaultWsdlPath : String :=
  "C:\\\\APIUprawnieniaKierowcow\\\\wsdl.ul.uprawnienia-kierowcow.przewoznicy-1.0.1\\\\wsdl-xsd\\\\uprawnienia-kierowcow.przewoznicy.wsdl"

/-- Default for UPKI_ENDPOINT_URL. -/
def defaultEndpointUrl : String :=
  "https://185.41.93.94:6455/cepik/api/ul/UprawnieniaKierowcowPrzewoznicyService"

/-- Default for UPKI_TLS_CERT_PEM. -/
def defaultTlsCertPath : String := "C:\\\\APIUprawnieniaKierowcow\\\\cert\\\\client_tls_cert.pem"

/-- Default for UPKI_TLS_KEY_PEM. -/
def defaultTlsKeyPath : String := "C:\\\\APIUprawnieniaKierowcow\\\\cert\\\\client_tls_key.pem"

/-- Default for UPKI_WSSE_KEY_PEM. -/
def defaultWsseKeyPath : String := "C:\\\\APIUprawnieniaKierowcow\\\\cert\\\\wsse_key.pem"

/-- Default for UPKI_WSSE_CERT_PEM. -/
def defaultWsseCertPath : String := "C:\\\\APIUprawnieniaKierowcow\\\\cert\\\\wsse_cert.pem"

/-- The body of one iteration of the validation loop in load_config: empty value
check, then local-file existence check skipped when the value contains a URI
scheme separator. -/
def checkPath (fs : FS) (env_var path : String) : Option UpkiError :=
  if path == "" then
    some (.configurationError ("Environment variable " ++ env_var ++ " must be set"))
  else if !containsSubstr "://" path && !fs path then
    some (.configurationError ("File not found for " ++ env_var ++ ": " ++ path))
  else none

/-- The for loop of load_config: raise at the first defective setting. -/
def firstError (fs : FS) : List (String × String) → Option UpkiError
  | [] => none
  | vp :: rest =>
    match checkPath fs vp.1 vp.2 with
    | some e => some e
    | none => firstError fs rest

/-- The condition under which load_config raises for UPKI_CA_BUNDLE:
if ca_bundle and a scheme-free path that does not exist. -/
def caBundleDefective (fs : FS) : Option String → Bool
  | none => false
  | some p => !(p == "") && !containsSubstr "://" p && !fs p

/-- load_config of upki_client.py: resolve every setting from the environment
(with the module's defaults), parse the two timeouts, then run the validation
checks in source order. -/
def load_config (env : Env) (fs : FS) : Except UpkiError UpkiConfig :=
  let wsdl_path := (env "UPKI_WSDL_PATH").getD defaultWsdlPath
  let service_endpoint := (env "UPKI_ENDPOINT_URL").getD defaultEndpointUrl
  let tls_cert_pem := (env "UPKI_TLS_CERT_PEM").getD defaultTlsCertPath
  let tls_key_pem := (env "UPKI_TLS_KEY_PEM").getD defaultTlsKeyPath
  let ca_bundle := env "UPKI_CA_BUNDLE"
  let wsse_key_pem := (env "UPKI_WSSE_KEY_PEM").getD defaultWsseKeyPath
  let wsse_cert_pem := (env "UPKI_WSSE_CERT_PEM").getD defaultWsseCertPath
  match parseFloat? ((env "UPKI_CONNECT_TIMEOUT").getD "10") with
  | none => .error (.configurationError "UPKI_CONNECT_TIMEOUT must be a numeric value")
  | some connect_timeout =>
    match parseFloat? ((env "UPKI_READ_TIMEOUT").getD "20") with
    | none => .error (.configurationError "UPKI_READ_TIMEOUT must be a numeric value")
    | some read_timeout =>
      let dbg := (env "UPKI_DEBUG").getD "0"
      let debug_soap := dbg == "1" || dbg == "true" || dbg == "True"
      match firstError fs
          [("UPKI_TLS_CERT_PEM", tls_cert_pem),
           ("UPKI_TLS_KEY_PEM", tls_key_pem),
           ("UPKI_WSSE_KEY_PEM", wsse_key_pem),
           ("UPKI_WSSE_CERT_PEM", wsse_cert_pem)] with
      | some e => .error e
      | none =>
        if caBundleDefective fs ca_bundle then
          .error (.configurationError
            ("File not found for UPKI_CA_BUNDLE: " ++ ca_bundle.getD ""))
        else if wsdl_path == "" then
          .error (.configurationError "Environment variable UPKI_WSDL_PATH must be set")
        else if !containsSubstr "://" wsdl_path && !fs wsdl_path then
          .error (.configurationError ("WSDL file not found: " ++ wsdl_path))
        else
          .ok { wsdl_path := wsdl_path
                service_endpoint := service_endpoint
                tls_cert_pem := tls_cert_pem
                tls_key_pem := tls_key_pem
                ca_bundle := ca_bundle
                wsse_key_pem := wsse_key_pem
                wsse_cert_pem := wsse_cert_pem
                connect_timeout := connect_timeout
                read_timeout := read_timeout
                debug_soap := debug_soap }

/-- What requests.Session.verify ends up as: True (platform trust store) or a
CA-bundle path. -/
inductive Verify where
  | system
  | bundle (path : String)
deriving DecidableEq

/-- The security-relevant state of the requests session built by
build_transport. -/
structure TransportCfg where
  cert : String × String
  verify : Verify

/-- build_transport of upki_client.py: session.cert is the TLS pair; verify is
the CA bundle when truthy, else True. -/
def build_transport (config : UpkiConfig) : TransportCfg :=
  { cert := (config.tls_cert_pem, config.tls_key_pem)
    verify :=
      match config.ca_bundle with
      | some p => if p == "" then Verify.system else Verify.bundle p
      | none => Verify.system }

/-- serialize_detail of upki_client.py (source name has a leading underscore):
None stays None; otherwise serialize_object when it succeeds, else str(detail). -/
def serialize_detail : Option FaultDetail → Option DetailRepr
  | none => none
  | some d =>
    match d.serialized with
    | some v => some (.value v)
    | none => some (.text d.text)

/-- The request object built by call_pytanie_o_uprawnienia. -/
structure RequestObj where
  imiePierwsze : String
  nazwisko : String
  seriaNumerBlankietuDruku : String

/-- What the remote service.pytanieOUprawnienia call does on a given request:
return a payload, raise a zeep Fault (with faultcode and detail attributes),
raise a requests RequestException, or raise an OSError. -/
inductive RemoteOutcome where
  | success (payload : JsonVal)
  | fault (message : String) (faultcode : Option String) (detail : Option FaultDetail)
  | requestExc (info : String)
  | osError (info : String)

/-- The read-only outside world an invocation runs against. -/
structure World where
  env : Env
  fs : FS
  remote : RequestObj → RemoteOutcome
  wsdlHasBindings : String → Bool

/-- Externally visible I/O performed during an invocation, in order. -/
inductive IOEvent where
  | configLoad
  | wsdlLoad (path : String)
  | netCall (endpoint : String)
deriving DecidableEq

/-- CPython logging.DEBUG. -/
def debugLevel : Nat := 10

/-- call_pytanie_o_uprawnienia of upki_client.py.

lvl is the process-wide level of the zeep logger before the call; the third
component of the result is its level afterwards (build_client sets it to
logging.DEBUG when config.debug_soap).  The event list records the I/O the
invocation performed: the environment/file reads of load_config, the service
description load of the zeep Client construction, and the network call itself.
The WSDL-binding lookup of the create_service_proxy helper is inlined, as is
build_client (whose observable effects are the logger level and the WSDL load;
build_transport is pure session construction). -/
def call_pytanie_o_uprawnienia (w : World) (lvl : Nat)
    (imie_pierwsze nazwisko seria_numer_blankietu : String) :
    Except UpkiError JsonVal × List IOEvent × Nat :=
  if imie_pierwsze == "" || nazwisko == "" || seria_numer_blankietu == "" then
    (.error (.clientError "All parameters must be provided for the UPKI request"), [], lvl)
  else
    match load_config w.env w.fs with
    | .error e => (.error e, [IOEvent.configLoad], lvl)
    | .ok config =>
      let lvl' := if config.debug_soap then debugLevel else lvl
      if w.wsdlHasBindings config.wsdl_path then
        let request_obj : RequestObj :=
          { imiePierwsze := imie_pierwsze
            nazwisko := nazwisko
            seriaNumerBlankietuDruku := seria_numer_blankietu }
        match w.remote request_obj with
        | .success payload =>
          (.ok payload,
           [IOEvent.configLoad, IOEvent.wsdlLoad config.wsdl_path,
            IOEvent.netCall config.service_endpoint], lvl')
        | .fault m fc d =>
          (.error (.serviceError m fc (serialize_detail d)),
           [IOEvent.configLoad, IOEvent.wsdlLoad config.wsdl_path,
            IOEvent.netCall config.service_endpoint], lvl')
        | .requestExc _ =>
          (.error (.clientError "Failed to communicate with the UPKI service"),
           [IOEvent.configLoad, IOEvent.wsdlLoad config.wsdl_path,
            IOEvent.netCall config.service_endpoint], lvl')
        | .osError _ =>
          (.error (.clientError "Failed to read certificate or key files required for UPKI access"),
           [IOEvent.configLoad, IOEvent.wsdlLoad config.wsdl_path,
            IOEvent.netCall config.service_endpoint], lvl')
      else
        (.error (.configurationError "The provided WSDL does not define any bindings"),
         [IOEvent.configLoad, IOEvent.wsdlLoad config.wsdl_path], lvl')

/-- Embedding of a serialized fault detail into the JSON response body. -/
def detailToJson : DetailRepr → JsonVal
  | .value v => v
  | .text s => .str s

/-- The except clauses of the Flask endpoint: configuration errors become 500,
service faults 502 with faultCode (when truthy) and details (when not None)
added to the body, any other UpkiClientError 502. -/
def mapCoreError : UpkiError → Nat × JsonVal
  | .configurationError m => (500, .obj [("error", .str m)])
  | .serviceError m fc d =>
    let base := [("error", JsonVal.str m)]
    let withCode :=
      match fc with
      | some c => if c == "" then base else base ++ [("faultCode", JsonVal.str c)]
      | none => base
    let withDetails :=
      match d with
      | some r => withCode ++ [("details", detailToJson r)]
      | none => withCode
    (502, .obj withDetails)
  | .clientError m => (502, .obj [("error", .str m)])

/-- The required request fields of the Flask endpoint. -/
def requiredFields : List String := ["imiePierwsze", "nazwisko", "seriaNumerBlankietuDruku"]

/-- payload.get(k) over the JSON body, modelled as an association list whose
values are strings. -/
def lookupField (body : List (String × String)) (k : String) : Option String :=
  (body.find? (fun kv => kv.1 == k)).map (fun kv => kv.2)

/-- Truthiness of payload.get(k): present and non-empty. -/
def fieldTruthy (body : List (String × String)) (k : String) : Bool :=
  match lookupField body k with
  | some v => !(v == "")
  | none => false

/-- payload[k] after the presence check. -/
def fieldVal (body : List (String × String)) (k : String) : String :=
  (lookupField body k).getD ""

/-- pytanie_o_uprawnienia_endpoint of app.py: the HTTP front door.  The body is
None when the request carried no valid JSON; field values are modelled as
strings.  Returns ((status, response body), zeep logger level afterwards). -/
def pytanie_o_uprawnienia_endpoint (w : World) (lvl : Nat)
    (body : Option (List (String × String))) : (Nat × JsonVal) × Nat :=
  match body with
  | none => ((400, .obj [("error", .str "Request body must be valid JSON.")]), lvl)
  | some b =>
    let missing := requiredFields.filter (fun f => !fieldTruthy b f)
    if missing.isEmpty then
      match call_pytanie_o_uprawnienia w lvl (fieldVal b "imiePierwsze")
          (fieldVal b "nazwisko") (fieldVal b "seriaNumerBlankietuDruku") with
      | (.ok v, _, lvl') => ((200, .obj [("data", v)]), lvl')
      | (.error e, _, lvl') => (mapCoreError e, lvl')
    else
      ((400, .obj [("error", .str "Missing required request fields."),
                   ("fields", .arr (missing.map JsonVal.str))]), lvl)

/-! ### Branch lemmas for the invoker -/

/-- Empty-argument branch of the invoker: the dedicated client error, no I/O
events, logger level untouched. -/
theorem call_invalid (w : World) (lvl : Nat) (i n s : String)
    (h : i = "" ∨ n = "" ∨ s = "") :
    call_pytanie_o_uprawnienia w lvl i n s =
      (.error (.clientError "All parameters must be provided for the UPKI request"), [], lvl) := by
  unfold call_pytanie_o_uprawnienia
  rcases h with h | h | h <;> subst h <;> simp

/-- Configuration-failure branch of the invoker. -/
theorem call_config_error (w : World) (lvl : Nat) (i n s : String) (e : UpkiError)
    (hi : ¬ i = "") (hn : ¬ n = "") (hs : ¬ s = "")
    (hcfg : load_config w.env w.fs = .error e) :
    call_pytanie_o_uprawnienia w lvl i n s = (.error e, [IOEvent.configLoad], lvl) := by
  unfold call_pytanie_o_uprawnienia
  simp [hi, hn, hs, hcfg]

/-- Success branch of the invoker. -/
theorem call_success (w : World) (lvl : Nat) (i n s : String) (cfg : UpkiConfig)
    (payload : JsonVal)
    (hi : ¬ i = "") (hn : ¬ n = "") (hs : ¬ s = "")
    (hcfg : load_config w.env w.fs = .ok cfg)
    (hb : w.wsdlHasBindings cfg.wsdl_path = true)
    (hr : w.remote ⟨i, n, s⟩ = .success payload) :
    call_pytanie_o_uprawnienia w lvl i n s =
      (.ok payload,
       [IOEvent.configLoad, IOEvent.wsdlLoad cfg.wsdl_path,
        IOEvent.netCall cfg.service_endpoint],
       if cfg.debug_soap then debugLevel else lvl) := by
  unfold call_pytanie_o_uprawnienia
  simp [hi, hn, hs, hcfg, hb, hr]

/-- SOAP-fault branch of the invoker. -/
theorem call_fault (w : World) (lvl : Nat) (i n s : String) (cfg : UpkiConfig)
    (m : String) (fc : Option String) (d : Option FaultDetail)
    (hi : ¬ i = "") (hn : ¬ n = "") (hs : ¬ s = "")
    (hcfg : load_config w.env w.fs = .ok cfg)
    (hb : w.wsdlHasBindings cfg.wsdl_path = true)
    (hr : w.remote ⟨i, n, s⟩ = .fault m fc d) :
    call_pytanie_o_uprawnienia w lvl i n s =
      (.error (.serviceError m fc (serialize_detail d)),
       [IOEvent.configLoad, IOEvent.wsdlLoad cfg.wsdl_path,
        IOEvent.netCall cfg.service_endpoint],
       if cfg.debug_soap then debugLevel else lvl) := by
  unfold call_pytanie_o_uprawnienia
  simp [hi, hn, hs, hcfg, hb, hr]

/-- RequestException branch of the invoker. -/
theorem call_requestExc (w : World) (lvl : Nat) (i n s : String) (cfg : UpkiConfig)
    (info : String)
    (hi : ¬ i = "") (hn : ¬ n = "") (hs : ¬ s = "")
    (hcfg : load_config w.env w.fs = .ok cfg)
    (hb : w.wsdlHasBindings cfg.wsdl_path = true)
    (hr : w.remote ⟨i, n, s⟩ = .requestExc info) :
    call_pytanie_o_uprawnienia w lvl i n s =
      (.error (.clientError "Failed to communicate with the UPKI service"),
       [IOEvent.configLoad, IOEvent.wsdlLoad cfg.wsdl_path,
        IOEvent.netCall cfg.service_endpoint],
       if cfg.debug_soap then debugLevel else lvl) := by
  unfold call_pytanie_o_uprawnienia
  simp [hi, hn, hs, hcfg, hb, hr]

/-- OSError branch of the invoker. -/
theorem call_osError (w : World) (lvl : Nat) (i n s : String) (cfg : UpkiConfig)
    (info : String)
    (hi : ¬ i = "") (hn : ¬ n = "") (hs : ¬ s = "")
    (hcfg : load_config w.env w.fs = .ok cfg)
    (hb : w.wsdlHasBindings cfg.wsdl_path = true)
    (hr : w.remote ⟨i, n, s⟩ = .osError info) :
    call_pytanie_o_uprawnienia w lvl i n s =
      (.error (.clientError "Failed to read certificate or key files required for UPKI access"),
       [IOEvent.configLoad, IOEvent.wsdlLoad cfg.wsdl_path,
        IOEvent.netCall cfg.service_endpoint],
       if cfg.debug_soap then debugLevel else lvl) := by
  unfold call_pytanie_o_uprawnienia
  simp [hi, hn, hs, hcfg, hb, hr]

/-! ### Lemmas about the configuration checks -/

/-- A setting that passes its check is non-empty and either URI-like or an
existing file. -/
theorem checkPath_eq_none {fs : FS} {v p : String}
    (h : checkPath fs v p = none) :
    ¬ p = "" ∧ (containsSubstr "://" p = true ∨ fs p = true) := by
  unfold checkPath at h
  split at h
  · cases h
  next hne =>
    split at h
    · cases h
    next hcond =>
      refine ⟨by simpa using hne, ?_⟩
      by_cases hc : containsSubstr "://" p = true
      · exact Or.inl hc
      · right
        by_cases hf : fs p = true
        · exact hf
        · exact absurd (by simp [Bool.not_eq_true] at hc hf; simp [hc, hf]) hcond

/-- If the validation loop finished without raising, every listed setting passed
its check. -/
theorem firstError_eq_none {fs : FS} {l : List (String × String)}
    (h : firstError fs l = none) :
    ∀ vp ∈ l, checkPath fs vp.1 vp.2 = none := by
  induction l with
  | nil => intro vp hvp; cases hvp
  | cons a rest ih =>
    intro vp hvp
    unfold firstError at h
    cases hc : checkPath fs a.1 a.2 with
    | some e => rw [hc] at h; cases h
    | none =>
      rw [hc] at h
      rcases List.mem_cons.mp hvp with hvp | hvp
      · rw [hvp]; exact hc
      · exact ih h vp hvp

/-- A truthy trust-anchor value that survived the check is URI-like or exists. -/
theorem caBundle_check {fs : FS} {ca : Option String}
    (h : caBundleDefective fs ca = false) :
    ∀ p, ca = some p → ¬ p = "" → containsSubstr "://" p = true ∨ fs p = true := by
  intro p hca hp
  subst hca
  unfold caBundleDefective at h
  by_cases hc : containsSubstr "://" p = true
  · exact Or.inl hc
  · right
    by_cases hf : fs p = true
    · exact hf
    · exfalso
      simp [Bool.not_eq_true] at hc hf
      simp [hc, hf, hp] at h

/-- What a successfully returned configuration looks like: each field is the
resolved environment value, the timeouts are the parsed floats, and every
validation check passed. -/
theorem load_config_ok_shape {env : Env} {fs : FS} {cfg : UpkiConfig}
    (h : load_config env fs = .ok cfg) :
    cfg.wsdl_path = (env "UPKI_WSDL_PATH").getD defaultWsdlPath ∧
    cfg.service_endpoint = (env "UPKI_ENDPOINT_URL").getD defaultEndpointUrl ∧
    cfg.tls_cert_pem = (env "UPKI_TLS_CERT_PEM").getD defaultTlsCertPath ∧
    cfg.tls_key_pem = (env "UPKI_TLS_KEY_PEM").getD defaultTlsKeyPath ∧
    cfg.ca_bundle = env "UPKI_CA_BUNDLE" ∧
    cfg.wsse_key_pem = (env "UPKI_WSSE_KEY_PEM").getD defaultWsseKeyPath ∧
    cfg.wsse_cert_pem = (env "UPKI_WSSE_CERT_PEM").getD defaultWsseCertPath ∧
    parseFloat? ((env "UPKI_CONNECT_TIMEOUT").getD "10") = some cfg.connect_timeout ∧
    parseFloat? ((env "UPKI_READ_TIMEOUT").getD "20") = some cfg.read_timeout ∧
    firstError fs
      [("UPKI_TLS_CERT_PEM", cfg.tls_cert_pem),
       ("UPKI_TLS_KEY_PEM", cfg.tls_key_pem),
       ("UPKI_WSSE_KEY_PEM", cfg.wsse_key_pem),
       ("UPKI_WSSE_CERT_PEM", cfg.wsse_cert_pem)] = none ∧
    caBundleDefective fs cfg.ca_bundle = false ∧
    ¬ cfg.wsdl_path = "" ∧
    (containsSubstr "://" cfg.wsdl_path = true ∨ fs cfg.wsdl_path = true) := by
  unfold load_config at h
  split at h
  · cases h
  next ct hct =>
    split at h
    · cases h
    next rt hrt =>
      simp only [] at h
      split at h
      · cases h
      next hfe =>
        split at h
        · cases h
        next hca =>
          split at h
          · cases h
          next hwe =>
            split at h
            · cases h
            next hwx =>
              cases h
              simp only [Bool.not_eq_true] at hca
              refine ⟨rfl, rfl, rfl, rfl, rfl, rfl, rfl, hct, hrt, hfe, hca, ?_, ?_⟩
              · simpa using hwe
              · by_cases hc :
                  containsSubstr "://" ((env "UPKI_WSDL_PATH").getD defaultWsdlPath) = true
                · exact Or.inl hc
                · right
                  by_cases hf : fs ((env "UPKI_WSDL_PATH").getD defaultWsdlPath) = true
                  · exact hf
                  · exact absurd (by simp [Bool.not_eq_true] at hc hf; simp [hc, hf]) hwx

/-! ### Substring lemmas -/

/-- A list starts with itself. -/
theorem listStartsWith_self (l : List Char) : listStartsWith l l = true := by
  induction l with
  | nil => rfl
  | cons a as ih => simp [listStartsWith, ih]

/-- A needle occurs in any list that ends with it. -/
theorem listContains_append_self (pre n : List Char) :
    listContains n (pre ++ n) = true := by
  induction pre with
  | nil =>
    cases n with
    | nil => rfl
    | cons c cs => simp [listContains, listStartsWith_self]
  | cons p ps ih => simp [listContains, ih]

/-- A string contains itself as a suffix of any extension on the left. -/
theorem containsSubstr_append_self (q p : String) :
    containsSubstr p (q ++ p) = true := by
  unfold containsSubstr
  rw [String.data_append]
  exact listContains_append_self q.data p.data

/-! ### Concrete environments and worlds used as test inputs -/

/-- An environment in which every path-valued setting is a URI-like value, so
no existence check ever consults the filesystem; endpoint, timeouts, trust
anchor and debug flag are left to their defaults. -/
def envAllUri : Env := fun k =>
  if k == "UPKI_WSDL_PATH" then some "http://wsdl.example/svc.wsdl"
  else if k == "UPKI_TLS_CERT_PEM" then some "res://tls-cert"
  else if k == "UPKI_TLS_KEY_PEM" then some "res://tls-key"
  else if k == "UPKI_WSSE_KEY_PEM" then some "res://wsse-key"
  else if k == "UPKI_WSSE_CERT_PEM" then some "res://wsse-cert"
  else none

/-- The configuration load_config returns under envAllUri. -/
def cfgAllUri : UpkiConfig :=
  { wsdl_path := "http://wsdl.example/svc.wsdl"
    service_endpoint := defaultEndpointUrl
    tls_cert_pem := "res://tls-cert"
    tls_key_pem := "res://tls-key"
    ca_bundle := none
    wsse_key_pem := "res://wsse-key"
    wsse_cert_pem := "res://wsse-cert"
    connect_timeout := mkRat (Int.ofNat 10) 1
    read_timeout := mkRat (Int.ofNat 20) 1
    debug_soap := false }

/-- A world whose remote endpoint deterministically succeeds with null. -/
def worldAllUri : World :=
  { env := envAllUri
    fs := fun _ => false
    remote := fun _ => RemoteOutcome.success JsonVal.null
    wsdlHasBindings := fun _ => true }

/-! ### C1 -/

/-- C1: whenever one of the three string arguments is empty, the invoker fails
with the dedicated invalid-input client error, and it does so before any
network or file I/O: the event trace is empty (no configuration load, no
transport or client construction, no remote call) and the process state is
untouched. -/
theorem c1_invalid_input_fails_before_io (w : World) (lvl : Nat) (i n s : String)
    (h : i = "" ∨ n = "" ∨ s = "") :
    call_pytanie_o_uprawnienia w lvl i n s =
      (.error (.clientError "All parameters must be provided for the UPKI request"), [], lvl) :=
  call_invalid w lvl i n s h

/-- C1 witness: the theorem applied at a concrete world and an empty first
argument. -/
theorem c1_witness :
    ("" = "" ∨ "b" = "" ∨ "c" = "") ∧
    call_pytanie_o_uprawnienia worldAllUri 0 "" "b" "c" =
      (.error (.clientError "All parameters must be provided for the UPKI request"), [], 0) :=
  ⟨Or.inl rfl, c1_invalid_input_fails_before_io worldAllUri 0 "" "b" "c" (Or.inl rfl)⟩

/-! ### C2 -/

/-- An environment in which both TLS settings point at distinct non-existent
local files while everything else is defect-free. -/
def envTwoBad : Env := fun k =>
  if k == "UPKI_TLS_CERT_PEM" then some "/certs/a.pem"
  else if k == "UPKI_TLS_KEY_PEM" then some "/certs/b.pem"
  else if k == "UPKI_WSDL_PATH" then some "http://wsdl.example/svc.wsdl"
  else if k == "UPKI_WSSE_KEY_PEM" then some "res://wsse-key"
  else if k == "UPKI_WSSE_CERT_PEM" then some "res://wsse-cert"
  else none

/-- C2 counterexample: with two defective path settings (the TLS certificate
and the TLS key both point at missing files), load_config raises an error that
names only the first defective setting; the second defective setting and its
path are absent from the message, so the error does not report the complete
set of configuration defects. -/
theorem c2_counterexample :
    (checkPath (fun _ => false) "UPKI_TLS_KEY_PEM" "/certs/b.pem").isSome = true ∧
    load_config envTwoBad (fun _ => false) =
      .error (.configurationError "File not found for UPKI_TLS_CERT_PEM: /certs/a.pem") ∧
    containsSubstr "UPKI_TLS_KEY_PEM"
      "File not found for UPKI_TLS_CERT_PEM: /certs/a.pem" = false ∧
    containsSubstr "/certs/b.pem"
      "File not found for UPKI_TLS_CERT_PEM: /certs/a.pem" = false :=
  ⟨rfl, rfl, by decide, by decide⟩

/-- If the timeouts parse and the first-checked setting (the TLS certificate)
fails its check, load_config raises exactly that check's error. -/
theorem load_config_error_of_first_check (env : Env) (fs : FS) (p : String) (e : UpkiError)
    (hct : (parseFloat? ((env "UPKI_CONNECT_TIMEOUT").getD "10")).isSome = true)
    (hrt : (parseFloat? ((env "UPKI_READ_TIMEOUT").getD "20")).isSome = true)
    (hp : env "UPKI_TLS_CERT_PEM" = some p)
    (hchk : checkPath fs "UPKI_TLS_CERT_PEM" p = some e) :
    load_config env fs = .error e := by
  obtain ⟨ct, hc⟩ := Option.isSome_iff_exists.mp hct
  obtain ⟨rt, hr⟩ := Option.isSome_iff_exists.mp hrt
  unfold load_config
  rw [hc, hr, hp]
  simp [firstError, hchk]

/-- C2 amended: load_config runs the configuration checks in the fixed source
order (TLS certificate, TLS key, WSSE key, WSSE certificate, trust anchor,
service description) and raises the error of the first check that fails: given
that every earlier check passed, the defect of the current setting determines
the raised error completely, whatever the state of the later settings, so only
the first defect encountered is reported. -/
theorem c2_first_defect_reported (env : Env) (fs : FS)
    (hct : (parseFloat? ((env "UPKI_CONNECT_TIMEOUT").getD "10")).isSome = true)
    (hrt : (parseFloat? ((env "UPKI_READ_TIMEOUT").getD "20")).isSome = true) :
    (∀ e, checkPath fs "UPKI_TLS_CERT_PEM"
        ((env "UPKI_TLS_CERT_PEM").getD defaultTlsCertPath) = some e →
      load_config env fs = .error e) ∧
    (checkPath fs "UPKI_TLS_CERT_PEM"
        ((env "UPKI_TLS_CERT_PEM").getD defaultTlsCertPath) = none →
      ∀ e, checkPath fs "UPKI_TLS_KEY_PEM"
        ((env "UPKI_TLS_KEY_PEM").getD defaultTlsKeyPath) = some e →
      load_config env fs = .error e) ∧
    (checkPath fs "UPKI_TLS_CERT_PEM"
        ((env "UPKI_TLS_CERT_PEM").getD defaultTlsCertPath) = none →
      checkPath fs "UPKI_TLS_KEY_PEM"
        ((env "UPKI_TLS_KEY_PEM").getD defaultTlsKeyPath) = none →
      ∀ e, checkPath fs "UPKI_WSSE_KEY_PEM"
        ((env "UPKI_WSSE_KEY_PEM").getD defaultWsseKeyPath) = some e →
      load_config env fs = .error e) ∧
    (checkPath fs "UPKI_TLS_CERT_PEM"
        ((env "UPKI_TLS_CERT_PEM").getD defaultTlsCertPath) = none →
      checkPath fs "UPKI_TLS_KEY_PEM"
        ((env "UPKI_TLS_KEY_PEM").getD defaultTlsKeyPath) = none →
      checkPath fs "UPKI_WSSE_KEY_PEM"
        ((env "UPKI_WSSE_KEY_PEM").getD defaultWsseKeyPath) = none →
      ∀ e, checkPath fs "UPKI_WSSE_CERT_PEM"
        ((env "UPKI_WSSE_CERT_PEM").getD defaultWsseCertPath) = some e →
      load_config env fs = .error e) ∧
    (checkPath fs "UPKI_TLS_CERT_PEM"
        ((env "UPKI_TLS_CERT_PEM").getD defaultTlsCertPath) = none →
      checkPath fs "UPKI_TLS_KEY_PEM"
        ((env "UPKI_TLS_KEY_PEM").getD defaultTlsKeyPath) = none →
      checkPath fs "UPKI_WSSE_KEY_PEM"
        ((env "UPKI_WSSE_KEY_PEM").getD defaultWsseKeyPath) = none →
      checkPath fs "UPKI_WSSE_CERT_PEM"
        ((env "UPKI_WSSE_CERT_PEM").getD defaultWsseCertPath) = none →
      caBundleDefective fs (env "UPKI_CA_BUNDLE") = true →
      load_config env fs = .error (.configurationError
        ("File not found for UPKI_CA_BUNDLE: " ++ (env "UPKI_CA_BUNDLE").getD ""))) ∧
    (checkPath fs "UPKI_TLS_CERT_PEM"
        ((env "UPKI_TLS_CERT_PEM").getD defaultTlsCertPath) = none →
      checkPath fs "UPKI_TLS_KEY_PEM"
        ((env "UPKI_TLS_KEY_PEM").getD defaultTlsKeyPath) = none →
      checkPath fs "UPKI_WSSE_KEY_PEM"
        ((env "UPKI_WSSE_KEY_PEM").getD defaultWsseKeyPath) = none →
      checkPath fs "UPKI_WSSE_CERT_PEM"
        ((env "UPKI_WSSE_CERT_PEM").getD defaultWsseCertPath) = none →
      caBundleDefective fs (env "UPKI_CA_BUNDLE") = false →
      (env "UPKI_WSDL_PATH").getD defaultWsdlPath = "" →
      load_config env fs = .error (.configurationError
        "Environment variable UPKI_WSDL_PATH must be set")) ∧
    (checkPath fs "UPKI_TLS_CERT_PEM"
        ((env "UPKI_TLS_CERT_PEM").getD defaultTlsCertPath) = none →
      checkPath fs "UPKI_TLS_KEY_PEM"
        ((env "UPKI_TLS_KEY_PEM").getD defaultTlsKeyPath) = none →
      checkPath fs "UPKI_WSSE_KEY_PEM"
        ((env "UPKI_WSSE_KEY_PEM").getD defaultWsseKeyPath) = none →
      checkPath fs "UPKI_WSSE_CERT_PEM"
        ((env "UPKI_WSSE_CERT_PEM").getD defaultWsseCertPath) = none →
      caBundleDefective fs (env "UPKI_CA_BUNDLE") = false →
      ¬ (env "UPKI_WSDL_PATH").getD defaultWsdlPath = "" →
      (!containsSubstr "://" ((env "UPKI_WSDL_PATH").getD defaultWsdlPath) &&
        !fs ((env "UPKI_WSDL_PATH").getD defaultWsdlPath)) = true →
      load_config env fs = .error (.configurationError
        ("WSDL file not found: " ++ (env "UPKI_WSDL_PATH").getD defaultWsdlPath))) := by
  obtain ⟨ct, hc⟩ := Option.isSome_iff_exists.mp hct
  obtain ⟨rt, hr⟩ := Option.isSome_iff_exists.mp hrt
  refine ⟨?_, ?_, ?_, ?_, ?_, ?_, ?_⟩
  · intro e h1
    unfold load_config
    rw [hc, hr]
    simp [firstError, h1]
  · intro h1 e h2
    unfold load_config
    rw [hc, hr]
    simp [firstError, h1, h2]
  · intro h1 h2 e h3
    unfold load_config
    rw [hc, hr]
    simp [firstError, h1, h2, h3]
  · intro h1 h2 h3 e h4
    unfold load_config
    rw [hc, hr]
    simp [firstError, h1, h2, h3, h4]
  · intro h1 h2 h3 h4 hca
    unfold load_config
    rw [hc, hr]
    simp [firstError, h1, h2, h3, h4, hca]
  · intro h1 h2 h3 h4 hca hw
    unfold load_config
    rw [hc, hr]
    simp [firstError, h1, h2, h3, h4, hca, hw]
  · intro h1 h2 h3 h4 hca hw hguard
    unfold load_config
    rw [hc, hr]
    simp [firstError, h1, h2, h3, h4, hca, hw, hguard]

/-- An environment in which only the TLS key setting (the second checked) is
defective: the TLS certificate and the remaining settings are URI-like. -/
def envKeyBad : Env := fun k =>
  if k == "UPKI_TLS_CERT_PEM" then some "res://tls-cert"
  else if k == "UPKI_TLS_KEY_PEM" then some "/certs/b.pem"
  else if k == "UPKI_WSDL_PATH" then some "http://wsdl.example/svc.wsdl"
  else if k == "UPKI_WSSE_KEY_PEM" then some "res://wsse-key"
  else if k == "UPKI_WSSE_CERT_PEM" then some "res://wsse-cert"
  else none

/-- C2 witness: the amended theorem applied where the first defect sits at a
later position of the check order (only the TLS key is defective), so the
raised error names exactly that setting. -/
theorem c2_witness :
    (parseFloat? ((envKeyBad "UPKI_CONNECT_TIMEOUT").getD "10")).isSome = true ∧
    (parseFloat? ((envKeyBad "UPKI_READ_TIMEOUT").getD "20")).isSome = true ∧
    checkPath (fun _ => false) "UPKI_TLS_CERT_PEM"
      ((envKeyBad "UPKI_TLS_CERT_PEM").getD defaultTlsCertPath) = none ∧
    checkPath (fun _ => false) "UPKI_TLS_KEY_PEM"
      ((envKeyBad "UPKI_TLS_KEY_PEM").getD defaultTlsKeyPath) =
      some (.configurationError "File not found for UPKI_TLS_KEY_PEM: /certs/b.pem") ∧
    load_config envKeyBad (fun _ => false) =
      .error (.configurationError "File not found for UPKI_TLS_KEY_PEM: /certs/b.pem") :=
  ⟨rfl, rfl, rfl, rfl,
   (c2_first_defect_reported envKeyBad (fun _ => false) rfl rfl).2.1 rfl
     (.configurationError "File not found for UPKI_TLS_KEY_PEM: /certs/b.pem") rfl⟩

/-! ### C3 -/

/-- C3: on a SOAP fault from the remote party the invoker fails with a
service error carrying the fault's fault code and the best-effort serialized
detail: the structural serialization when it succeeds, the textual
representation when structural serialization raises, and None when the fault
has no detail element. -/
theorem c3_fault_maps_to_service_error (w : World) (lvl : Nat) (i n s : String)
    (cfg : UpkiConfig) (m : String) (fc : Option String) (d : Option FaultDetail)
    (hi : ¬ i = "") (hn : ¬ n = "") (hs : ¬ s = "")
    (hcfg : load_config w.env w.fs = .ok cfg)
    (hb : w.wsdlHasBindings cfg.wsdl_path = true)
    (hr : w.remote ⟨i, n, s⟩ = .fault m fc d) :
    (call_pytanie_o_uprawnienia w lvl i n s).1 =
      .error (.serviceError m fc (serialize_detail d)) ∧
    (d = none → serialize_detail d = none) ∧
    (∀ det v, d = some det → det.serialized = some v →
      serialize_detail d = some (.value v)) ∧
    (∀ det, d = some det → det.serialized = none →
      serialize_detail d = some (.text det.text)) := by
  refine ⟨?_, ?_, ?_, ?_⟩
  · rw [call_fault w lvl i n s cfg m fc d hi hn hs hcfg hb hr]
  · intro hd; subst hd; rfl
  · intro det v hd hv; subst hd; simp [serialize_detail, hv]
  · intro det hd hv; subst hd; simp [serialize_detail, hv]

/-- A fault detail whose structural serialization succeeds. -/
def faultDetailEx : FaultDetail :=
  { serialized := some (.obj [("kod", .str "404")]), text := "detail-text" }

/-- A world whose remote endpoint returns a SOAP fault with fault code
Client.NotFound and a structured detail. -/
def worldFault : World :=
  { env := envAllUri
    fs := fun _ => false
    remote := fun _ => .fault "fault-msg" (some "Client.NotFound") (some faultDetailEx)
    wsdlHasBindings := fun _ => true }

/-- C3 witness: the theorem applied at a concrete faulting world. -/
theorem c3_witness :
    ¬ "a" = "" ∧
    load_config worldFault.env worldFault.fs = .ok cfgAllUri ∧
    worldFault.wsdlHasBindings cfgAllUri.wsdl_path = true ∧
    worldFault.remote ⟨"a", "b", "c"⟩ =
      .fault "fault-msg" (some "Client.NotFound") (some faultDetailEx) ∧
    (call_pytanie_o_uprawnienia worldFault 0 "a" "b" "c").1 =
      .error (.serviceError "fault-msg" (some "Client.NotFound")
        (some (.value (.obj [("kod", .str "404")])))) :=
  ⟨by decide, rfl, rfl, rfl, by
    have h := (c3_fault_maps_to_service_error worldFault 0 "a" "b" "c" cfgAllUri
      "fault-msg" (some "Client.NotFound") (some faultDetailEx)
      (by decide) (by decide) (by decide) rfl rfl rfl).1
    rw [h]; rfl⟩

/-! ### C4 -/

/-- A world whose remote call raises a requests-level exception. -/
def worldTransport : World :=
  { env := envAllUri
    fs := fun _ => false
    remote := fun _ => .requestExc "connection refused"
    wsdlHasBindings := fun _ => true }

/-- C4 counterexample: a transport-level failure is raised as the base
UpkiClientError class, the very same exception class the invalid-input failure
uses, so the kind reached by the inbound caller is not distinct from
InvalidInput: there is no separate Transport kind in the code's taxonomy. -/
theorem c4_counterexample :
    (call_pytanie_o_uprawnienia worldTransport 0 "a" "b" "c").1 =
      .error (.clientError "Failed to communicate with the UPKI service") ∧
    (call_pytanie_o_uprawnienia worldTransport 0 "" "" "").1 =
      .error (.clientError "All parameters must be provided for the UPKI request") ∧
    errClass (.clientError "Failed to communicate with the UPKI service") =
      errClass (.clientError "All parameters must be provided for the UPKI request") :=
  ⟨rfl, rfl, rfl⟩

/-- C4 amended: transport failures during the remote call (RequestException or
OSError) are re-raised as the base UpkiClientError with a fixed normalized
message; that class is distinct from the Configuration and ServiceFault
classes, but it is the same class the invalid-input failure uses, so the
caller-visible taxonomy has three classes, not four kinds. -/
theorem c4_transport_maps_to_base_client_error (w : World) (lvl : Nat)
    (i n s info : String) (cfg : UpkiConfig)
    (hi : ¬ i = "") (hn : ¬ n = "") (hs : ¬ s = "")
    (hcfg : load_config w.env w.fs = .ok cfg)
    (hb : w.wsdlHasBindings cfg.wsdl_path = true) :
    (w.remote ⟨i, n, s⟩ = .requestExc info →
      (call_pytanie_o_uprawnienia w lvl i n s).1 =
        .error (.clientError "Failed to communicate with the UPKI service")) ∧
    (w.remote ⟨i, n, s⟩ = .osError info →
      (call_pytanie_o_uprawnienia w lvl i n s).1 =
        .error (.clientError "Failed to read certificate or key files required for UPKI access")) ∧
    (∀ m m2 fc d, ¬ errClass (.clientError m) = errClass (.configurationError m2) ∧
      ¬ errClass (.clientError m) = errClass (.serviceError m2 fc d)) ∧
    errClass (.clientError "Failed to communicate with the UPKI service") =
      errClass (.clientError "All parameters must be provided for the UPKI request") := by
  refine ⟨?_, ?_, ?_, rfl⟩
  · intro hr
    rw [call_requestExc w lvl i n s cfg info hi hn hs hcfg hb hr]
  · intro hr
    rw [call_osError w lvl i n s cfg info hi hn hs hcfg hb hr]
  · intro m m2 fc d
    exact ⟨by simp [errClass], by simp [errClass]⟩

/-- C4 witness: the amended theorem applied at the concrete transport-failing
world. -/
theorem c4_witness :
    ¬ "a" = "" ∧
    load_config worldTransport.env worldTransport.fs = .ok cfgAllUri ∧
    worldTransport.wsdlHasBindings cfgAllUri.wsdl_path = true ∧
    worldTransport.remote ⟨"a", "b", "c"⟩ = .requestExc "connection refused" ∧
    (call_pytanie_o_uprawnienia worldTransport 0 "a" "b" "c").1 =
      .error (.clientError "Failed to communicate with the UPKI service") :=
  ⟨by decide, rfl, rfl, rfl,
    (c4_transport_maps_to_base_client_error worldTransport 0 "a" "b" "c"
      "connection refused" cfgAllUri (by decide) (by decide) (by decide) rfl rfl).1 rfl⟩

/-! ### C5 -/

/-- C5 counterexample: the front door's exception mapping sends the core's
invalid-input failure (a bare UpkiClientError) to 502, not to 400; the 400
answers for bad input come from the front door's own pre-validation, which
runs before the core. -/
theorem c5_counterexample :
    (mapCoreError (.clientError "All parameters must be provided for the UPKI request")).1
      = 502 ∧
    ¬ (mapCoreError (.clientError "All parameters must be provided for the UPKI request")).1
      = 400 :=
  ⟨rfl, by decide⟩

/-- The three required fields, when all truthy, give non-empty values to the
core, so the core's own invalid-input check can never fire behind the front
door's validation. -/
theorem fieldTruthy_val {b : List (String × String)} {f : String}
    (h : fieldTruthy b f = true) : ¬ fieldVal b f = "" := by
  unfold fieldTruthy at h
  unfold fieldVal
  cases hl : lookupField b f with
  | none => rw [hl] at h; cases h
  | some v =>
    rw [hl] at h
    simp only [Option.getD_some]
    simpa using h

/-- C5 amended: the front door answers 400 itself for a missing/non-JSON body
or any missing/empty required field (before the core runs, and the values then
passed to the core are non-empty, so the core's invalid-input error is
unreachable); for core outcomes it maps success to 200 with the result under
data, Configuration to 500, ServiceFault to 502 with faultCode (when truthy)
and details (when present) in the body, and every other client error --
transport failures and the invalid-input error alike -- to 502. -/
theorem c5_front_door_mapping (w : World) (lvl : Nat) :
    (pytanie_o_uprawnienia_endpoint w lvl none =
      ((400, .obj [("error", .str "Request body must be valid JSON.")]), lvl)) ∧
    (∀ b, (requiredFields.filter (fun f => !fieldTruthy b f)).isEmpty = false →
      (pytanie_o_uprawnienia_endpoint w lvl (some b)).1.1 = 400) ∧
    (∀ b, (requiredFields.filter (fun f => !fieldTruthy b f)).isEmpty = true →
      ¬ fieldVal b "imiePierwsze" = "" ∧ ¬ fieldVal b "nazwisko" = "" ∧
      ¬ fieldVal b "seriaNumerBlankietuDruku" = "") ∧
    (∀ m, mapCoreError (.configurationError m) = (500, .obj [("error", .str m)])) ∧
    (∀ m, mapCoreError (.clientError m) = (502, .obj [("error", .str m)])) ∧
    (∀ m fc d, (mapCoreError (.serviceError m fc d)).1 = 502) ∧
    (∀ m fc r, ¬ fc = "" →
      mapCoreError (.serviceError m (some fc) (some r)) =
        (502, .obj [("error", .str m), ("faultCode", .str fc),
                    ("details", detailToJson r)])) ∧
    (∀ b, (requiredFields.filter (fun f => !fieldTruthy b f)).isEmpty = true →
      pytanie_o_uprawnienia_endpoint w lvl (some b) =
        (match call_pytanie_o_uprawnienia w lvl (fieldVal b "imiePierwsze")
            (fieldVal b "nazwisko") (fieldVal b "seriaNumerBlankietuDruku") with
         | (.ok v, _, lvl') => ((200, JsonVal.obj [("data", v)]), lvl')
         | (.error e, _, lvl') => (mapCoreError e, lvl'))) := by
  refine ⟨rfl, ?_, ?_, fun m => rfl, fun m => rfl, fun m fc d => rfl, ?_, ?_⟩
  · intro b hmiss
    unfold pytanie_o_uprawnienia_endpoint
    simp only [hmiss]
    rfl
  · intro b hmiss
    have hall : ∀ f ∈ requiredFields, (!fieldTruthy b f) = false := by
      intro f hf
      simpa using List.filter_eq_nil_iff.mp (List.isEmpty_iff.mp hmiss) f hf
    refine ⟨?_, ?_, ?_⟩ <;>
      exact fieldTruthy_val (by simpa using hall _ (by simp [requiredFields]))
  · intro m fc r hfc
    unfold mapCoreError
    simp [hfc]
  · intro b hmiss
    unfold pytanie_o_uprawnienia_endpoint
    simp only [hmiss]
    rfl

/-- C5 witness: the amended theorem applied at concrete inputs (a service
fault body with fault code and details, and a missing-field request). -/
theorem c5_witness :
    ¬ "Client.NotFound" = "" ∧
    mapCoreError (.serviceError "soap fault" (some "Client.NotFound")
        (some (.text "detail-text"))) =
      (502, .obj [("error", .str "soap fault"), ("faultCode", .str "Client.NotFound"),
                  ("details", .str "detail-text")]) ∧
    (requiredFields.filter
      (fun f => !fieldTruthy [("imiePierwsze", "a")] f)).isEmpty = false ∧
    (pytanie_o_uprawnienia_endpoint worldAllUri 0 (some [("imiePierwsze", "a")])).1.1 = 400 :=
  ⟨by decide,
   (c5_front_door_mapping worldAllUri 0).2.2.2.2.2.2.1 "soap fault" "Client.NotFound"
     (.text "detail-text") (by decide),
   by decide,
   (c5_front_door_mapping worldAllUri 0).2.1 [("imiePierwsze", "a")] (by decide)⟩

/-! ### C6 -/

/-- An environment with an empty endpoint URL and a negative connect timeout;
every path setting is left to its default. -/
def envBadCfg : Env := fun k =>
  if k == "UPKI_ENDPOINT_URL" then some ""
  else if k == "UPKI_CONNECT_TIMEOUT" then some "-5"
  else none

/-- C6 counterexample: with all default files present, an empty endpoint URL
and a negative connect timeout, load_config still succeeds: the returned
configuration has an empty service endpoint (a required field that is empty)
and a negative connect timeout (a timeout that is not positive), violating the
claimed invariant on both counts. -/
theorem c6_counterexample :
    (load_config envBadCfg (fun _ => true)).toOption.map
      (fun c => (c.service_endpoint, c.connect_timeout.num)) = some ("", -5) := rfl

/-- C6 amended: every configuration returned by load_config has the six
path-valued settings non-empty and, when not URI-like, naming existing files
(the trust anchor only when truthy), and its two timeouts are exactly the
successfully parsed floats of the corresponding settings; positivity of the
timeouts and non-emptiness of the endpoint URL are not guaranteed. -/
theorem c6_config_invariant (env : Env) (fs : FS) (cfg : UpkiConfig)
    (h : load_config env fs = .ok cfg) :
    (¬ cfg.tls_cert_pem = "" ∧
      (containsSubstr "://" cfg.tls_cert_pem = true ∨ fs cfg.tls_cert_pem = true)) ∧
    (¬ cfg.tls_key_pem = "" ∧
      (containsSubstr "://" cfg.tls_key_pem = true ∨ fs cfg.tls_key_pem = true)) ∧
    (¬ cfg.wsse_key_pem = "" ∧
      (containsSubstr "://" cfg.wsse_key_pem = true ∨ fs cfg.wsse_key_pem = true)) ∧
    (¬ cfg.wsse_cert_pem = "" ∧
      (containsSubstr "://" cfg.wsse_cert_pem = true ∨ fs cfg.wsse_cert_pem = true)) ∧
    (∀ p, cfg.ca_bundle = some p → ¬ p = "" →
      containsSubstr "://" p = true ∨ fs p = true) ∧
    (¬ cfg.wsdl_path = "" ∧
      (containsSubstr "://" cfg.wsdl_path = true ∨ fs cfg.wsdl_path = true)) ∧
    parseFloat? ((env "UPKI_CONNECT_TIMEOUT").getD "10") = some cfg.connect_timeout ∧
    parseFloat? ((env "UPKI_READ_TIMEOUT").getD "20") = some cfg.read_timeout := by
  obtain ⟨-, -, -, -, -, -, -, hct, hrt, hfe, hca, hwe, hwx⟩ := load_config_ok_shape h
  have hmem := firstError_eq_none hfe
  refine ⟨?_, ?_, ?_, ?_, caBundle_check hca, ⟨hwe, hwx⟩, hct, hrt⟩
  · exact checkPath_eq_none (hmem ("UPKI_TLS_CERT_PEM", cfg.tls_cert_pem) (by simp))
  · exact checkPath_eq_none (hmem ("UPKI_TLS_KEY_PEM", cfg.tls_key_pem) (by simp))
  · exact checkPath_eq_none (hmem ("UPKI_WSSE_KEY_PEM", cfg.wsse_key_pem) (by simp))
  · exact checkPath_eq_none (hmem ("UPKI_WSSE_CERT_PEM", cfg.wsse_cert_pem) (by simp))

/-- C6 witness: the amended invariant at a concrete successful load. -/
theorem c6_witness :
    load_config envAllUri (fun _ => false) = .ok cfgAllUri ∧
    ¬ cfgAllUri.tls_cert_pem = "" ∧
    containsSubstr "://" cfgAllUri.tls_cert_pem = true :=
  ⟨rfl, (c6_config_invariant envAllUri (fun _ => false) cfgAllUri rfl).1.1, by decide⟩

/-! ### C7 -/

/-- An environment whose TLS certificate setting names a secret-looking local
path; all other settings are URI-like. -/
def envLeak : Env := fun k =>
  if k == "UPKI_TLS_CERT_PEM" then some "/etc/secret/client.pem" else envAllUri k

/-- A world built on envLeak with no local files. -/
def worldLeak : World :=
  { env := envLeak
    fs := fun _ => false
    remote := fun _ => RemoteOutcome.success JsonVal.null
    wsdlHasBindings := fun _ => true }

/-- C7 counterexample: a configuration error for a missing certificate file
embeds the local file path in its message, and the front door returns that
message verbatim in the 500 response body, so the path crosses the boundary
to the caller. -/
theorem c7_counterexample :
    load_config envLeak (fun _ => false) =
      .error (.configurationError
        "File not found for UPKI_TLS_CERT_PEM: /etc/secret/client.pem") ∧
    containsSubstr "/etc/secret/client.pem"
      "File not found for UPKI_TLS_CERT_PEM: /etc/secret/client.pem" = true ∧
    pytanie_o_uprawnienia_endpoint worldLeak 0
        (some [("imiePierwsze", "a"), ("nazwisko", "b"),
               ("seriaNumerBlankietuDruku", "c")]) =
      ((500, .obj [("error",
          .str "File not found for UPKI_TLS_CERT_PEM: /etc/secret/client.pem")]), 0) :=
  ⟨rfl, by decide, rfl⟩

/-- C7 amended: the invalid-input and transport failure paths carry fixed
normalized messages free of configuration content, but a configuration error
for a missing local file embeds the offending file path in the message that
crosses the boundary. -/
theorem c7_error_message_characterization (w : World) (lvl : Nat)
    (i n s info : String) (cfg : UpkiConfig) :
    ((i = "" ∨ n = "" ∨ s = "") →
      (call_pytanie_o_uprawnienia w lvl i n s).1 =
        .error (.clientError "All parameters must be provided for the UPKI request")) ∧
    (¬ i = "" → ¬ n = "" → ¬ s = "" →
      load_config w.env w.fs = .ok cfg →
      w.wsdlHasBindings cfg.wsdl_path = true →
      ((w.remote ⟨i, n, s⟩ = .requestExc info →
        (call_pytanie_o_uprawnienia w lvl i n s).1 =
          .error (.clientError "Failed to communicate with the UPKI service")) ∧
       (w.remote ⟨i, n, s⟩ = .osError info →
        (call_pytanie_o_uprawnienia w lvl i n s).1 =
          .error (.clientError
            "Failed to read certificate or key files required for UPKI access")))) ∧
    (∀ env fs p,
      env "UPKI_TLS_CERT_PEM" = some p → ¬ p = "" →
      containsSubstr "://" p = false → fs p = false →
      (parseFloat? ((env "UPKI_CONNECT_TIMEOUT").getD "10")).isSome = true →
      (parseFloat? ((env "UPKI_READ_TIMEOUT").getD "20")).isSome = true →
      load_config env fs =
        .error (.configurationError ("File not found for UPKI_TLS_CERT_PEM: " ++ p)) ∧
      containsSubstr p ("File not found for UPKI_TLS_CERT_PEM: " ++ p) = true) := by
  refine ⟨fun h => by rw [call_invalid w lvl i n s h], ?_, ?_⟩
  · intro hi hn hs hcfg hb
    constructor
    · intro hr
      rw [call_requestExc w lvl i n s cfg info hi hn hs hcfg hb hr]
    · intro hr
      rw [call_osError w lvl i n s cfg info hi hn hs hcfg hb hr]
  · intro env fs p hp hne hc hf hct hrt
    have hchk : checkPath fs "UPKI_TLS_CERT_PEM" p =
        some (.configurationError ("File not found for UPKI_TLS_CERT_PEM: " ++ p)) := by
      unfold checkPath
      rw [hc]
      simp [hne, hf]
    exact ⟨load_config_error_of_first_check env fs p _ hct hrt hp hchk,
           containsSubstr_append_self "File not found for UPKI_TLS_CERT_PEM: " p⟩

/-- C7 witness: the amended theorem applied at the leaking environment. -/
theorem c7_witness :
    envLeak "UPKI_TLS_CERT_PEM" = some "/etc/secret/client.pem" ∧
    ¬ "/etc/secret/client.pem" = "" ∧
    containsSubstr "://" "/etc/secret/client.pem" = false ∧
    load_config envLeak (fun _ => false) =
      .error (.configurationError
        ("File not found for UPKI_TLS_CERT_PEM: " ++ "/etc/secret/client.pem")) :=
  ⟨rfl, by decide, by decide,
   ((c7_error_message_characterization worldLeak 0 "a" "b" "c" "x" cfgAllUri).2.2
     envLeak (fun _ => false) "/etc/secret/client.pem"
     rfl (by decide) (by decide) rfl rfl rfl).1⟩

/-! ### C8 -/

/-- Decomposition of an invocation: its result and event trace do not depend
on the incoming logger level, and the outgoing logger level is either
logging.DEBUG (when the successful configuration enables debug_soap and the
client is built) or the incoming level unchanged. -/
theorem call_shape (w : World) (lvl : Nat) (i n s : String) :
    ∃ (r : Except UpkiError JsonVal) (t : List IOEvent) (b : Bool),
      call_pytanie_o_uprawnienia w lvl i n s = (r, t, if b then debugLevel else lvl) ∧
      ∀ lvl₂, call_pytanie_o_uprawnienia w lvl₂ i n s = (r, t, if b then debugLevel else lvl₂) := by
  by_cases hv : (i == "" || n == "" || s == "") = true
  · exact ⟨.error (.clientError "All parameters must be provided for the UPKI request"),
      [], false, by simp [call_pytanie_o_uprawnienia, hv],
      fun lvl₂ => by simp [call_pytanie_o_uprawnienia, hv]⟩
  · cases hcfg : load_config w.env w.fs with
    | error e =>
      exact ⟨.error e, [IOEvent.configLoad], false,
        by simp [call_pytanie_o_uprawnienia, hv, hcfg],
        fun lvl₂ => by simp [call_pytanie_o_uprawnienia, hv, hcfg]⟩
    | ok cfg =>
      cases hb : w.wsdlHasBindings cfg.wsdl_path with
      | false =>
        exact ⟨.error (.configurationError "The provided WSDL does not define any bindings"),
          [IOEvent.configLoad, IOEvent.wsdlLoad cfg.wsdl_path], cfg.debug_soap,
          by simp [call_pytanie_o_uprawnienia, hv, hcfg, hb],
          fun lvl₂ => by simp [call_pytanie_o_uprawnienia, hv, hcfg, hb]⟩
      | true =>
        cases hr : w.remote ⟨i, n, s⟩ with
        | success payload =>
          exact ⟨.ok payload,
            [IOEvent.configLoad, IOEvent.wsdlLoad cfg.wsdl_path,
             IOEvent.netCall cfg.service_endpoint], cfg.debug_soap,
            by simp [call_pytanie_o_uprawnienia, hv, hcfg, hb, hr],
            fun lvl₂ => by simp [call_pytanie_o_uprawnienia, hv, hcfg, hb, hr]⟩
        | fault m fc d =>
          exact ⟨.error (.serviceError m fc (serialize_detail d)),
            [IOEvent.configLoad, IOEvent.wsdlLoad cfg.wsdl_path,
             IOEvent.netCall cfg.service_endpoint], cfg.debug_soap,
            by simp [call_pytanie_o_uprawnienia, hv, hcfg, hb, hr],
            fun lvl₂ => by simp [call_pytanie_o_uprawnienia, hv, hcfg, hb, hr]⟩
        | requestExc info =>
          exact ⟨.error (.clientError "Failed to communicate with the UPKI service"),
            [IOEvent.configLoad, IOEvent.wsdlLoad cfg.wsdl_path,
             IOEvent.netCall cfg.service_endpoint], cfg.debug_soap,
            by simp [call_pytanie_o_uprawnienia, hv, hcfg, hb, hr],
            fun lvl₂ => by simp [call_pytanie_o_uprawnienia, hv, hcfg, hb, hr]⟩
        | osError info =>
          exact ⟨.error (.clientError
              "Failed to read certificate or key files required for UPKI access"),
            [IOEvent.configLoad, IOEvent.wsdlLoad cfg.wsdl_path,
             IOEvent.netCall cfg.service_endpoint], cfg.debug_soap,
            by simp [call_pytanie_o_uprawnienia, hv, hcfg, hb, hr],
            fun lvl₂ => by simp [call_pytanie_o_uprawnienia, hv, hcfg, hb, hr]⟩

/-- An environment like envAllUri but with UPKI_DEBUG set to 1. -/
def envDebug : Env := fun k =>
  if k == "UPKI_DEBUG" then some "1" else envAllUri k

/-- A debug-enabled world with a deterministic successful remote endpoint. -/
def worldDebug : World :=
  { env := envDebug
    fs := fun _ => false
    remote := fun _ => RemoteOutcome.success JsonVal.null
    wsdlHasBindings := fun _ => true }

/-- C8 counterexample: with debugTrace enabled, a successful invocation sets
the process-wide zeep logger level to logging.DEBUG, a persistent process
state change (observable by any later call), so enabling debugTrace does not
leave process state unaltered. -/
theorem c8_counterexample :
    (call_pytanie_o_uprawnienia worldDebug 0 "a" "b" "c").1 = .ok JsonVal.null ∧
    (call_pytanie_o_uprawnienia worldDebug 0 "a" "b" "c").2.2 = debugLevel ∧
    ¬ (call_pytanie_o_uprawnienia worldDebug 0 "a" "b" "c").2.2 = 0 :=
  ⟨rfl, rfl, by decide⟩

/-- C8 amended: two sequential invocations with identical inputs against the
same deterministic world produce identical results and traces, the second call
leaves the logger level exactly where the first left it, and the result and
trace of an invocation are independent of the logger level -- debugTrace
affects only the persistent zeep logger level, never the outcome. -/
theorem c8_idempotent_and_log_level_only (w : World) (lvl : Nat) (i n s : String) :
    ((call_pytanie_o_uprawnienia w ((call_pytanie_o_uprawnienia w lvl i n s).2.2) i n s).1 =
      (call_pytanie_o_uprawnienia w lvl i n s).1) ∧
    ((call_pytanie_o_uprawnienia w ((call_pytanie_o_uprawnienia w lvl i n s).2.2) i n s).2.1 =
      (call_pytanie_o_uprawnienia w lvl i n s).2.1) ∧
    ((call_pytanie_o_uprawnienia w ((call_pytanie_o_uprawnienia w lvl i n s).2.2) i n s).2.2 =
      (call_pytanie_o_uprawnienia w lvl i n s).2.2) ∧
    (∀ lvl₂, (call_pytanie_o_uprawnienia w lvl₂ i n s).1 =
        (call_pytanie_o_uprawnienia w lvl i n s).1 ∧
      (call_pytanie_o_uprawnienia w lvl₂ i n s).2.1 =
        (call_pytanie_o_uprawnienia w lvl i n s).2.1) := by
  obtain ⟨r, t, b, h1, h2⟩ := call_shape w lvl i n s
  have hpost := h2 ((call_pytanie_o_uprawnienia w lvl i n s).2.2)
  refine ⟨?_, ?_, ?_, fun lvl₂ => ⟨?_, ?_⟩⟩
  · rw [hpost, h1]
  · rw [hpost, h1]
  · rw [hpost, h1]
    cases b <;> simp
  · rw [h2 lvl₂, h1]
  · rw [h2 lvl₂, h1]

/-! ### C9 -/

/-- C9: the trust anchor is optional: an unset or empty UPKI_CA_BUNDLE never
trips the existence check, the configuration records the environment's value
verbatim, and the transport verifies against the platform default (True)
exactly when the value is unset or empty; a truthy value becomes the verify
target. -/
theorem c9_trust_anchor_defaulting (env : Env) (fs : FS) (cfg : UpkiConfig)
    (h : load_config env fs = .ok cfg) :
    cfg.ca_bundle = env "UPKI_CA_BUNDLE" ∧
    (∀ fs2 ca, (ca = none ∨ ca = some "") → caBundleDefective fs2 ca = false) ∧
    ((env "UPKI_CA_BUNDLE" = none ∨ env "UPKI_CA_BUNDLE" = some "") →
      (build_transport cfg).verify = Verify.system) ∧
    (∀ p, env "UPKI_CA_BUNDLE" = some p → ¬ p = "" →
      (build_transport cfg).verify = Verify.bundle p) := by
  obtain ⟨-, -, -, -, hca, -, -, -, -, -, -, -, -⟩ := load_config_ok_shape h
  refine ⟨hca, ?_, ?_, ?_⟩
  · rintro fs2 ca (rfl | rfl) <;> rfl
  · rintro (he | he) <;> simp [build_transport, hca, he]
  · intro p he hp
    simp [build_transport, hca, he, hp]

/-- An environment like envAllUri but with a URI-like trust anchor set. -/
def envCaBundle : Env := fun k =>
  if k == "UPKI_CA_BUNDLE" then some "res://ca" else envAllUri k

/-- The configuration load_config returns under envCaBundle. -/
def cfgCaBundle : UpkiConfig := { cfgAllUri with ca_bundle := some "res://ca" }

/-- C9 witness: the theorem applied at a concrete load with the trust anchor
unset (platform default) and at one with it set (bundle target). -/
theorem c9_witness :
    load_config envAllUri (fun _ => false) = .ok cfgAllUri ∧
    envAllUri "UPKI_CA_BUNDLE" = none ∧
    (build_transport cfgAllUri).verify = Verify.system ∧
    load_config envCaBundle (fun _ => false) = .ok cfgCaBundle ∧
    envCaBundle "UPKI_CA_BUNDLE" = some "res://ca" ∧
    (build_transport cfgCaBundle).verify = Verify.bundle "res://ca" :=
  ⟨rfl, rfl,
   (c9_trust_anchor_defaulting envAllUri (fun _ => false) cfgAllUri rfl).2.2.1 (Or.inl rfl),
   rfl, rfl,
   (c9_trust_anchor_defaulting envCaBundle (fun _ => false) cfgCaBundle rfl).2.2.2
     "res://ca" rfl (by decide)⟩

/-! ### C10 -/

/-- A non-empty URI-like value passes the loop check under every filesystem. -/
theorem checkPath_none_of_uri {v p : String} (hp : ¬ p = "")
    (hc : containsSubstr "://" p = true) (fs : FS) : checkPath fs v p = none := by
  unfold checkPath
  rw [hc]
  simp [hp]

/-- A trust-anchor value that is absent, empty, or URI-like never trips the
trust-anchor check, under every filesystem. -/
theorem caBundleDefective_false_of_uri {ca : Option String}
    (h : ∀ p, ca = some p → ¬ p = "" → containsSubstr "://" p = true) (fs : FS) :
    caBundleDefective fs ca = false := by
  cases ca with
  | none => rfl
  | some p =>
    by_cases hp : p = ""
    · subst hp; rfl
    · have hred : caBundleDefective fs (some p) =
          (!(p == "") && !containsSubstr "://" p && !fs p) := rfl
      rw [hred, h p rfl hp]
      simp

/-- C10: for each of the six path-valued settings, the local-file existence
check is skipped for every filesystem exactly when the value contains the
substring "://" anywhere: as an iff for the four-setting loop (checkPath), for
the trust-anchor check (caBundleDefective on a non-empty value), and for the
service-description guard of load_config; consequently, whenever every one of
the six resolved setting values is non-empty and URI-like (the trust anchor
when truthy), load_config's outcome is the same under every filesystem and it
succeeds, so such values are accepted without any existence verification even
when no file exists at all. -/
theorem c10_uri_scheme_skips_existence_check :
    (∀ v p, ¬ p = "" →
      ((∀ fs, checkPath fs v p = none) ↔ containsSubstr "://" p = true)) ∧
    (∀ p, ¬ p = "" →
      ((∀ fs, caBundleDefective fs (some p) = false) ↔ containsSubstr "://" p = true)) ∧
    (∀ p, ((∀ fs : FS, (!containsSubstr "://" p && !fs p) = false) ↔
      containsSubstr "://" p = true)) ∧
    (∀ env,
      (parseFloat? ((env "UPKI_CONNECT_TIMEOUT").getD "10")).isSome = true →
      (parseFloat? ((env "UPKI_READ_TIMEOUT").getD "20")).isSome = true →
      ¬ (env "UPKI_TLS_CERT_PEM").getD defaultTlsCertPath = "" →
      containsSubstr "://" ((env "UPKI_TLS_CERT_PEM").getD defaultTlsCertPath) = true →
      ¬ (env "UPKI_TLS_KEY_PEM").getD defaultTlsKeyPath = "" →
      containsSubstr "://" ((env "UPKI_TLS_KEY_PEM").getD defaultTlsKeyPath) = true →
      ¬ (env "UPKI_WSSE_KEY_PEM").getD defaultWsseKeyPath = "" →
      containsSubstr "://" ((env "UPKI_WSSE_KEY_PEM").getD defaultWsseKeyPath) = true →
      ¬ (env "UPKI_WSSE_CERT_PEM").getD defaultWsseCertPath = "" →
      containsSubstr "://" ((env "UPKI_WSSE_CERT_PEM").getD defaultWsseCertPath) = true →
      (∀ p, env "UPKI_CA_BUNDLE" = some p → ¬ p = "" →
        containsSubstr "://" p = true) →
      ¬ (env "UPKI_WSDL_PATH").getD defaultWsdlPath = "" →
      containsSubstr "://" ((env "UPKI_WSDL_PATH").getD defaultWsdlPath) = true →
      ∀ fs fs', load_config env fs = load_config env fs' ∧
        (load_config env fs).isOk = true) := by
  refine ⟨?_, ?_, ?_, ?_⟩
  · intro v p hp
    constructor
    · intro hall
      by_contra hc
      rw [Bool.not_eq_true] at hc
      have hnone := hall (fun _ => false)
      unfold checkPath at hnone
      rw [hc] at hnone
      simp [hp] at hnone
    · intro hc fs
      exact checkPath_none_of_uri hp hc fs
  · intro p hp
    constructor
    · intro hall
      by_contra hc
      rw [Bool.not_eq_true] at hc
      have hfalse := hall (fun _ => false)
      have hred : caBundleDefective (fun _ => false) (some p) =
          (!(p == "") && !containsSubstr "://" p && !(false : Bool)) := rfl
      rw [hred, hc] at hfalse
      simp [hp] at hfalse
    · intro hc fs
      refine caBundleDefective_false_of_uri ?_ fs
      intro q hq hq2
      cases hq
      exact hc
  · intro p
    constructor
    · intro hall
      by_contra hc
      rw [Bool.not_eq_true] at hc
      have hfalse := hall (fun _ => false)
      rw [hc] at hfalse
      simp at hfalse
    · intro hc fs
      rw [hc]
      simp
  · intro env hct hrt hp1 hc1 hp2 hc2 hp3 hc3 hp4 hc4 hcab hpw hcw
    obtain ⟨ct, hc⟩ := Option.isSome_iff_exists.mp hct
    obtain ⟨rt, hr⟩ := Option.isSome_iff_exists.mp hrt
    have hfe : ∀ fs, firstError fs
        [("UPKI_TLS_CERT_PEM", (env "UPKI_TLS_CERT_PEM").getD defaultTlsCertPath),
         ("UPKI_TLS_KEY_PEM", (env "UPKI_TLS_KEY_PEM").getD defaultTlsKeyPath),
         ("UPKI_WSSE_KEY_PEM", (env "UPKI_WSSE_KEY_PEM").getD defaultWsseKeyPath),
         ("UPKI_WSSE_CERT_PEM", (env "UPKI_WSSE_CERT_PEM").getD defaultWsseCertPath)] =
        none := by
      intro fs
      simp [firstError, checkPath_none_of_uri hp1 hc1 fs, checkPath_none_of_uri hp2 hc2 fs,
        checkPath_none_of_uri hp3 hc3 fs, checkPath_none_of_uri hp4 hc4 fs]
    have hload : ∀ fs, load_config env fs = load_config env (fun _ => true) := by
      intro fs
      unfold load_config
      rw [hc, hr]
      simp only [hfe fs, hfe (fun _ => true),
        caBundleDefective_false_of_uri hcab fs,
        caBundleDefective_false_of_uri hcab (fun _ => true), hcw]
      simp
    intro fs fs'
    refine ⟨(hload fs).trans (hload fs').symm, ?_⟩
    rw [hload fs]
    unfold load_config
    rw [hc, hr]
    simp only [hfe (fun _ => true), caBundleDefective_false_of_uri hcab (fun _ => true),
      hpw, hcw]
    simp [hpw]
    rfl

/-- C10 witness: the theorem applied at a concrete URI-like value for each
kind of check (loop setting, trust anchor, service-description guard), and at
a concrete all-URI environment with a set trust anchor, comparing the
all-files filesystem against the empty one. -/
theorem c10_witness :
    checkPath (fun _ => false) "UPKI_TLS_CERT_PEM" "res://tls-cert" = none ∧
    caBundleDefective (fun _ => false) (some "res://ca") = false ∧
    (!containsSubstr "://" "http://wsdl.example/svc.wsdl" &&
      !(fun _ => false) "http://wsdl.example/svc.wsdl") = false ∧
    load_config envCaBundle (fun _ => true) = load_config envCaBundle (fun _ => false) ∧
    (load_config envCaBundle (fun _ => true)).isOk = true :=
  ⟨(c10_uri_scheme_skips_existence_check.1 "UPKI_TLS_CERT_PEM" "res://tls-cert"
      (by decide)).mpr (by decide) (fun _ => false),
   (c10_uri_scheme_skips_existence_check.2.1 "res://ca" (by decide)).mpr
      (by decide) (fun _ => false),
   (c10_uri_scheme_skips_existence_check.2.2.1 "http://wsdl.example/svc.wsdl").mpr
      (by decide) (fun _ => false),
   (c10_uri_scheme_skips_existence_check.2.2.2 envCaBundle rfl rfl
      (by decide) (by decide) (by decide) (by decide) (by decide) (by decide)
      (by decide) (by decide)
      (fun p hp hne => by injection hp with h; rw [← h]; decide)
      (by decide) (by decide) (fun _ => true) (fun _ => false)).1,
   (c10_uri_scheme_skips_existence_check.2.2.2 envCaBundle rfl rfl
      (by decide) (by decide) (by decide) (by decide) (by decide) (by decide)
      (by decide) (by decide)
      (fun p hp hne => by injection hp with h; rw [← h]; decide)
      (by decide) (by decide) (fun _ => true) (fun _ => false)).2⟩

end Upki
